import Mathlib

/-!
Shallow embedding of `nbsapi_verify` (src/nbsapi_verify/cli.py), a CLI that
either generates a `common.yaml` configuration file or validates a requested
test category (all/auth/public) against the configuration and the discovered
test files before delegating to an external test-execution engine (pytest).

The filesystem, the parsed YAML contents of existing files, the discovered
test-file texts and the engine are supplied by an explicit environment;
the CLI body `cliRun` mirrors the Python function `cli` branch for branch.
-/

namespace NbsapiVerify

/-- The three test categories accepted by `--test-type` (class `TestType`). -/
inductive TestType where
  | all
  | auth
  | public
deriving DecidableEq, Repr

/-- The string value of a `TestType` (it is a `str`-valued enum in the code). -/
def typeName : TestType → String
  | .all => "all"
  | .auth => "auth"
  | .public => "public"

/-- A parsed YAML value: string, integer, or mapping (the shapes this tool
reads and writes). -/
inductive YVal where
  | str : String → YVal
  | int : Int → YVal
  | map : List (String × YVal) → YVal

/-- A YAML mapping, in insertion order (Python dicts preserve it). -/
abbrev YMap := List (String × YVal)

/-- Lookup of a key in a mapping: first binding wins. -/
def lookupKey (m : YMap) (k : String) : Option YVal :=
  match m with
  | [] => none
  | (k', v) :: rest => if k' = k then some v else lookupKey rest k

/-- Python's `k in d` membership test on a mapping. -/
def hasKey (m : YMap) (k : String) : Bool :=
  (lookupKey m k).isSome

/-- Python truthiness of an `Optional[str]`: `None` and `""` are falsy. -/
def truthy : Option String → Bool
  | none => false
  | some s => !s.isEmpty

/-- `Path(dir) / file` (we only ever join a directory with a file name). -/
def joinPath (dir file : String) : String := dir ++ "/" ++ file

/-- The parsed command line (`cli`'s parameters with click's defaults). -/
structure Opts where
  generate : Bool := false
  config_dir : Option String := none
  host : Option String := none
  testid : Int := 1
  username : Option String := none
  password : Option String := none
  solution : Int := 1
  test_type : TestType := .all

/-- The command line of a `--generate` invocation with an explicit host
value (the remaining options as given, `--test-type` left at its default). -/
def genOpts (cd : Option String) (host : String) (tid : Int)
    (u pw : Option String) (sol : Int) : Opts :=
  { generate := true, config_dir := cd, host := some host, testid := tid,
    username := u, password := pw, solution := sol, test_type := .all }

/-- The CLI's environment: working directory, platform user config directory
(`click.get_app_dir("nbsinfra_verify")`), the set of existing files, the
parsed YAML content behind each existing config file, the package test
directory with the raw texts of the discovered `*.tavern.yaml` files, and the
external engine (`pytest.main`) as a function from its argument list to its
exit code. -/
structure Env where
  cwd : String
  appDir : String
  existing : List String
  configs : List (String × YMap)
  testDir : String
  testDirExists : Bool
  testFiles : List String
  engine : List String → Int

/-- Does a path exist in the environment (`Path.exists`)? -/
def pathExists (env : Env) (p : String) : Bool :=
  env.existing.contains p

/-- `yaml.safe_load` of an existing config file: the parsed mapping the
environment associates with the path (only consulted for existing files). -/
def readConfig (env : Env) (p : String) : YMap :=
  match env.configs.find? (fun q => q.1 == p) with
  | some q => q.2
  | none => []

/-- `get_config_locations`: the possible locations for `common.yaml` in
priority order — current directory first, user config directory second. -/
def get_config_locations (env : Env) : List String :=
  [joinPath env.cwd "common.yaml", joinPath env.appDir "common.yaml"]

/-- `find_config`: first existing path among the priority locations. -/
def find_config (env : Env) : Option String :=
  (get_config_locations env).find? (fun p => pathExists env p)

/-- `get_config_path`: where a new config is written — the explicit directory
when one is given (Python truthiness: an empty string counts as absent),
otherwise the current directory. -/
def get_config_path (env : Env) (config_dir : Option String) : String :=
  if truthy config_dir then joinPath (config_dir.getD "") "common.yaml"
  else joinPath env.cwd "common.yaml"

/-- The `variables` mapping built by the generator: `host`, `user_id`,
`solution_id` always; `username`/`password` only when both are truthy
(`if username and password:`). -/
def genVariables (host : String) (testid : Int) (username password : Option String)
    (solution : Int) : YMap :=
  let base : YMap :=
    [("host", YVal.str host), ("user_id", YVal.int testid),
     ("solution_id", YVal.int solution)]
  if truthy username && truthy password then
    base ++ [("username", YVal.str (username.getD "")),
             ("password", YVal.str (password.getD ""))]
  else base

/-- Does `p` lead the character list `l` (`p` matched at position 0)? -/
def leadMatch : List Char → List Char → Bool
  | [], _ => true
  | _ :: _, [] => false
  | p :: ps, c :: cs => (p = c : Bool) && leadMatch ps cs

/-- Scan `l` for an occurrence of `pat` at any position. -/
def scanFor (pat : List Char) : List Char → Bool
  | [] => pat.isEmpty
  | c :: cs => leadMatch pat (c :: cs) || scanFor pat cs

/-- Python's `pat in s` on strings: substring containment. -/
def strContains (s pat : String) : Bool :=
  scanFor pat.data s.data

/-- The literal marker text whose presence classifies a test file as `auth`. -/
def authMarker : String := "marks:\n- auth"

/-- The literal marker text whose presence classifies a test file as `public`. -/
def publicMarker : String := "marks:\n- public"

/-- Is at least one discovered test file marked `auth`
(`"marks:\n- auth" in content` over the scanned files)? -/
def anyAuthTests (env : Env) : Bool :=
  env.testFiles.any (fun c => strContains c authMarker)

/-- Is at least one discovered test file marked `public`? -/
def anyPublicTests (env : Env) : Bool :=
  env.testFiles.any (fun c => strContains c publicMarker)

/-- `config.get("variables", {})`: the variables mapping of a loaded config.
A present non-mapping value would raise in Python; the claims only concern
mapping-valued `variables`, and an absent key yields the empty mapping. -/
def varsOf (config : YMap) : YMap :=
  match lookupKey config "variables" with
  | some (YVal.map m) => m
  | _ => []

/-- `has_auth_config`: both `username` and `password` present in `variables`. -/
def hasAuthConfigOf (vars : YMap) : Bool :=
  hasKey vars "username" && hasKey vars "password"

/-- Every distinct fail-fast error the CLI can report before invoking the
engine, with the data its message interpolates. -/
inductive ErrKind where
  | missingHost
  | configNotFoundAt (path : String)
  | configNotFoundSearched (locations : List String)
  | missingAuthConfig (t : TestType)
  | testDirNotFound (dir : String)
  | noAuthTests
  | noPublicTests
  | missingTestTypes (missing : List String)
deriving DecidableEq

/-- The text printed to the error stream for each error (the `click.echo`
`err=True` strings of `cli`). -/
def errText : ErrKind → String
  | .missingHost => "Error: --host is required when using --generate"
  | .configNotFoundAt p => "Error: Configuration file not found at " ++ p
  | .configNotFoundSearched locs =>
      "Error: Configuration file not found in any of these locations:\n  "
        ++ String.intercalate "\n  " locs
        ++ "\n\nPlease run with --generate flag first to create configuration."
  | .missingAuthConfig t =>
      "Error: Test type '" ++ typeName t
        ++ "' requested but auth configuration is missing.\n"
        ++ "Auth tests require 'username' and 'password' in the configuration.\n"
        ++ "Please regenerate the configuration with --username and --password parameters."
  | .testDirNotFound d => "Error: Test directory not found at " ++ d
  | .noAuthTests =>
      "Error: Test type 'auth' requested but no auth test files found.\n"
        ++ "Make sure auth test files are generated and properly marked."
  | .noPublicTests =>
      "Error: Test type 'public' requested but no public test files found.\n"
        ++ "Make sure public test files are generated and properly marked."
  | .missingTestTypes missing =>
      "Error: Test type 'all' requested but some test types are missing: "
        ++ String.intercalate ", " missing
        ++ ".\nMake sure all test types are generated before running 'all' tests."

/-- What one invocation of `cli` does: write a config file, exit 1 with an
error, or invoke the engine and exit with its code. -/
inductive Outcome where
  | generated (path : String) (config : YMap)
  | err (k : ErrKind)
  | run (args : List String) (exitCode : Int)

/-- The process exit code of each outcome: 0 after generating, 1 on any
validation/config error, the engine's code verbatim otherwise. -/
def exitCodeOf : Outcome → Int
  | .generated _ _ => 0
  | .err _ => 1
  | .run _ c => c

/-- Was the execution engine invoked? -/
def engineInvoked : Outcome → Bool
  | .run _ _ => true
  | _ => false

/-- `pytest_args`: target directory, presentation flags, config reference,
and a marker filter when the category is not `all`. -/
def pytestArgs (testDir configPath : String) (t : TestType) : List String :=
  [testDir, "-q", "--tb=no", "--no-header", "--no-summary",
   "--tavern-global-cfg=" ++ configPath]
    ++ (if t ≠ .all then ["-m", typeName t] else [])

/-- Resolving the config path in run (non-generate) mode: an explicit truthy
`--config-dir` is consulted exclusively; otherwise the priority locations are
searched and a miss enumerates them. -/
def locateConfig (env : Env) (config_dir : Option String) : Except ErrKind String :=
  if truthy config_dir then
    if pathExists env (joinPath (config_dir.getD "") "common.yaml") then
      .ok (joinPath (config_dir.getD "") "common.yaml")
    else .error (.configNotFoundAt (joinPath (config_dir.getD "") "common.yaml"))
  else
    match find_config env with
    | some p => .ok p
    | none => .error (.configNotFoundSearched (get_config_locations env))

/-- The `variables` mapping of the configuration a run would locate (empty
when location fails; only consulted after a successful location). -/
def locatedVars (env : Env) (cd : Option String) : YMap :=
  match locateConfig env cd with
  | .ok p => varsOf (readConfig env p)
  | .error _ => []

/-- The run (non-generate) branch of `cli`: locate and load the config,
check credentials for `auth`/`all`, check the test directory, scan the test
files for markers, check the requested category against them, then invoke
the engine. -/
def runTests (env : Env) (o : Opts) : Outcome :=
  match locateConfig env o.config_dir with
  | .error k => .err k
  | .ok configPath =>
    if (o.test_type = .auth || o.test_type = .all)
        && !hasAuthConfigOf (varsOf (readConfig env configPath)) then
      .err (.missingAuthConfig o.test_type)
    else if !env.testDirExists then
      .err (.testDirNotFound env.testDir)
    else if o.test_type = .auth && !anyAuthTests env then
      .err .noAuthTests
    else if o.test_type = .public && !anyPublicTests env then
      .err .noPublicTests
    else if o.test_type = .all && !(anyAuthTests env && anyPublicTests env) then
      .err (.missingTestTypes
        ((if !anyAuthTests env then ["auth"] else [])
          ++ (if !anyPublicTests env then ["public"] else [])))
    else
      .run (pytestArgs env.testDir configPath o.test_type)
        (env.engine (pytestArgs env.testDir configPath o.test_type))

/-- The whole `cli` entry point. In generate mode a missing (or empty) host
is a usage error; otherwise the config mapping is built and written to
`get_config_path`. In run mode, `runTests`. -/
def cliRun (env : Env) (o : Opts) : Outcome :=
  if o.generate then
    if !truthy o.host then .err .missingHost
    else
      .generated (get_config_path env o.config_dir)
        [("variables",
          YVal.map (genVariables (o.host.getD "") o.testid o.username o.password
            o.solution))]
  else runTests env o

/-- Writing a config file: the path now exists and its parsed content is the
written mapping (a rewrite shadows any earlier content at the same path). -/
def writeConfig (env : Env) (p : String) (cfg : YMap) : Env :=
  { env with existing := p :: env.existing, configs := (p, cfg) :: env.configs }

/-- The environment after one invocation: only generation writes anything. -/
def envAfter (env : Env) (o : Opts) : Env :=
  match cliRun env o with
  | .generated p cfg => writeConfig env p cfg
  | _ => env

/-- Parsed content of a fully provisioned configuration file. -/
def cfgFull : YMap :=
  [("variables", YVal.map
    [("host", YVal.str "http://localhost:8000"), ("user_id", YVal.int 1),
     ("solution_id", YVal.int 1), ("username", YVal.str "alice"),
     ("password", YVal.str "secret")])]

/-- Parsed content of a configuration file generated without credentials. -/
def cfgNoCred : YMap :=
  [("variables", YVal.map
    [("host", YVal.str "http://localhost:8000"), ("user_id", YVal.int 1),
     ("solution_id", YVal.int 1)])]

/-- A test file text carrying the `auth` marker line. -/
def authTestFile : String :=
  "test_name: auth case\nmarks:\n- auth\nstages: []\n"

/-- A test file text carrying the `public` marker line. -/
def publicTestFile : String :=
  "test_name: public case\nmarks:\n- public\nstages: []\n"

/-- Sample environment: a full configuration in the working directory, one
test file of each category, and an engine exiting with code 7. -/
def envFull : Env :=
  { cwd := "/work", appDir := "/home/user/.config/nbsinfra_verify",
    existing := ["/work/common.yaml"],
    configs := [("/work/common.yaml", cfgFull)],
    testDir := "/pkg/tests", testDirExists := true,
    testFiles := [authTestFile, publicTestFile],
    engine := fun _ => 7 }

/-- Sample environment: a credential-less configuration and only a public
test file. -/
def envNoCred : Env :=
  { envFull with
    configs := [("/work/common.yaml", cfgNoCred)],
    testFiles := [publicTestFile], engine := fun _ => 0 }

/-- Sample environment with no configuration file anywhere. -/
def envEmpty : Env :=
  { envFull with
    existing := [], configs := [] }

/-- Sample environment whose only configuration file sits in the platform
user config directory. -/
def envUserOnly : Env :=
  { envFull with
    existing := ["/home/user/.config/nbsinfra_verify/common.yaml"],
    configs := [("/home/user/.config/nbsinfra_verify/common.yaml", cfgFull)] }

/-- A pattern leads a list exactly when the list extends it. -/
theorem leadMatch_iff (p l : List Char) :
    leadMatch p l = true ↔ ∃ t, l = p ++ t := by
  induction p generalizing l with
  | nil => simp [leadMatch]
  | cons c cs ih =>
    cases l with
    | nil => simp [leadMatch]
    | cons d ds =>
      simp only [leadMatch, Bool.and_eq_true, decide_eq_true_eq, ih,
        List.cons_append, List.cons.injEq]
      constructor
      · rintro ⟨rfl, t, rfl⟩; exact ⟨t, rfl, rfl⟩
      · rintro ⟨t, rfl, rfl⟩; exact ⟨rfl, t, rfl⟩

/-- The scan finds the pattern exactly when the list decomposes around it. -/
theorem scanFor_iff (p l : List Char) :
    scanFor p l = true ↔ ∃ a b, l = a ++ p ++ b := by
  induction l with
  | nil =>
    cases p <;> simp [scanFor, List.isEmpty]
  | cons c cs ih =>
    simp only [scanFor, Bool.or_eq_true, leadMatch_iff, ih]
    constructor
    · rintro (⟨t, h⟩ | ⟨a, b, rfl⟩)
      · exact ⟨[], t, by simpa using h⟩
      · exact ⟨c :: a, b, by simp⟩
    · rintro ⟨a, b, h⟩
      cases a with
      | nil => exact Or.inl ⟨b, by simpa using h⟩
      | cons x xs =>
        simp only [List.cons_append, List.cons.injEq] at h
        exact Or.inr ⟨xs, b, h.2⟩

/-- Substring containment agrees with the declarative decomposition. -/
theorem strContains_iff (s pat : String) :
    strContains s pat = true ↔ ∃ a b, s.data = a ++ pat.data ++ b :=
  scanFor_iff pat.data s.data

/-- Inversion: an engine invocation pins down every gate the run passed. -/
theorem runTests_run_inv (env : Env) (o : Opts) (args : List String) (code : Int)
    (h : runTests env o = .run args code) :
    ∃ p, locateConfig env o.config_dir = .ok p ∧
      ((o.test_type = .auth || o.test_type = .all)
        && !hasAuthConfigOf (varsOf (readConfig env p))) = false ∧
      env.testDirExists = true ∧
      (o.test_type = .auth && !anyAuthTests env) = false ∧
      (o.test_type = .public && !anyPublicTests env) = false ∧
      (o.test_type = .all && !(anyAuthTests env && anyPublicTests env)) = false ∧
      args = pytestArgs env.testDir p o.test_type ∧ code = env.engine args := by
  unfold runTests at h
  cases hl : locateConfig env o.config_dir with
  | error k => rw [hl] at h; exact absurd h (by simp)
  | ok p =>
    rw [hl] at h
    simp only at h
    refine ⟨p, rfl, ?_⟩
    split at h
    · exact absurd h (by simp)
    split at h
    · exact absurd h (by simp)
    split at h
    · exact absurd h (by simp)
    split at h
    · exact absurd h (by simp)
    split at h
    · exact absurd h (by simp)
    rename_i h1 h2 h3 h4 h5
    simp only [Outcome.run.injEq] at h
    obtain ⟨ha, hc⟩ := h
    refine ⟨by simpa using h1, by simpa using h2, by simpa using h3,
      by simpa using h4, by simpa using h5, ha.symm, ?_⟩
    rw [← hc, ha]

/-- Every error message is non-empty. -/
theorem errText_ne_empty (k : ErrKind) : errText k ≠ "" := by
  cases k <;> intro h <;>
    (have h1 := congrArg String.data h; simp [errText, String.data_append] at h1)

/-- C2: every error outcome of a run exits with code 1, is raised before the
execution engine is invoked, and carries a non-empty error-stream message. -/
theorem cli_errors_fail_fast_exit_one (env : Env) (o : Opts) (k : ErrKind)
    (h : cliRun env o = .err k) :
    exitCodeOf (cliRun env o) = 1 ∧ engineInvoked (cliRun env o) = false
    ∧ errText k ≠ "" := by
  rw [h]
  exact ⟨rfl, rfl, errText_ne_empty k⟩

/-- C5: a generate invocation whose host is absent or empty exits with code 1
reporting the missing-host usage error, and leaves the filesystem
unchanged. -/
theorem cli_generate_without_host_writes_nothing (env : Env) (o : Opts)
    (hg : o.generate = true) (hh : truthy o.host = false) :
    cliRun env o = .err .missingHost ∧ exitCodeOf (cliRun env o) = 1
    ∧ envAfter env o = env := by
  have hc : cliRun env o = .err .missingHost := by
    simp [cliRun, hg, hh]
  exact ⟨hc, by simp [hc, exitCodeOf], by simp [envAfter, hc]⟩

/-- Inversion: the missing-categories error arises only for `all`, with the
reported list computed from the two mark scans. -/
theorem runTests_missing_inv (env : Env) (o : Opts) (m : List String)
    (h : runTests env o = .err (.missingTestTypes m)) :
    o.test_type = .all ∧
    m = (if !anyAuthTests env then ["auth"] else [])
          ++ (if !anyPublicTests env then ["public"] else []) ∧
    (anyAuthTests env && anyPublicTests env) = false := by
  unfold runTests at h
  cases hl : locateConfig env o.config_dir with
  | error k =>
    rw [hl] at h
    simp only [Outcome.err.injEq] at h
    subst h
    unfold locateConfig at hl
    split at hl
    · split at hl
      · exact absurd hl (by simp)
      · simp at hl
    · cases hfc : find_config env <;> rw [hfc] at hl <;> simp at hl
  | ok p =>
    rw [hl] at h
    simp only at h
    split at h
    · exact absurd h (by simp)
    split at h
    · exact absurd h (by simp)
    split at h
    · exact absurd h (by simp)
    split at h
    · exact absurd h (by simp)
    split at h
    · rename_i h5
      simp only [Bool.and_eq_true, decide_eq_true_eq, Bool.not_eq_true'] at h5
      simp only [Outcome.err.injEq, ErrKind.missingTestTypes.injEq] at h
      exact ⟨h5.1, h.symm, h5.2⟩
    · exact absurd h (by simp)

/-- C1: in run mode the execution engine is never invoked unless, for
category `auth` or `all`, the located configuration's variables hold both
`username` and `password` and some test file carries the `auth` mark, and,
for category `public` or `all`, some test file carries the `public` mark;
when `all` fails on marks, the reported list names exactly the missing
categories. -/
theorem cli_gates_engine_on_marks_and_credentials (env : Env) (o : Opts) (hg : o.generate = false) :
    (∀ args code, cliRun env o = .run args code →
      ((o.test_type = .auth ∨ o.test_type = .all) →
        hasAuthConfigOf (locatedVars env o.config_dir) = true
          ∧ anyAuthTests env = true)
      ∧ ((o.test_type = .public ∨ o.test_type = .all) →
        anyPublicTests env = true))
    ∧ (∀ m, cliRun env o = .err (.missingTestTypes m) →
      o.test_type = .all
      ∧ ("auth" ∈ m ↔ anyAuthTests env = false)
      ∧ ("public" ∈ m ↔ anyPublicTests env = false)) := by
  have hcli : cliRun env o = runTests env o := by simp [cliRun, hg]
  constructor
  · intro args code h
    rw [hcli] at h
    obtain ⟨p, hp, b1, _, b3, b4, b5, _, _⟩ := runTests_run_inv env o args code h
    have hlv : locatedVars env o.config_dir = varsOf (readConfig env p) := by
      simp [locatedVars, hp]
    constructor
    · intro ht
      rw [hlv]
      rcases ht with ht | ht <;> rw [ht] at b1 b3 b5 <;> simp at b1 b3 b5 <;>
        exact ⟨b1, by tauto⟩
    · intro ht
      rcases ht with ht | ht <;> rw [ht] at b4 b5 <;> simp at b4 b5 <;> tauto
  · intro m h
    rw [hcli] at h
    obtain ⟨ht, hm, hb⟩ := runTests_missing_inv env o m h
    subst hm
    refine ⟨ht, ?_, ?_⟩ <;>
      cases hA : anyAuthTests env <;> cases hP : anyPublicTests env <;> decide

/-- A non-empty string has `isEmpty` false. -/
theorem isEmpty_false_of_ne (s : String) (h : s ≠ "") : s.isEmpty = false := by
  rw [Bool.eq_false_iff]
  intro he
  exact h ((String.isEmpty_iff s).mp he)

/-- C9: whenever a run invokes the execution engine, the tool's own exit code
is the engine's returned exit code, unmodified. -/
theorem cli_forwards_engine_exit_code (env : Env) (o : Opts) (args : List String) (code : Int)
    (h : cliRun env o = .run args code) :
    code = env.engine args ∧ exitCodeOf (cliRun env o) = env.engine args := by
  cases hg : o.generate with
  | true =>
    exfalso
    unfold cliRun at h
    rw [hg] at h
    simp only [if_true] at h
    split at h
    · exact absurd h (by simp)
    · exact absurd h (by simp)
  | false =>
    have hcli : cliRun env o = runTests env o := by simp [cliRun, hg]
    rw [hcli] at h
    obtain ⟨p, _, _, _, _, _, _, _, hc⟩ := runTests_run_inv env o args code h
    refine ⟨hc, ?_⟩
    rw [hcli, h, ← hc]
    rfl

/-- C3: when the located configuration's variables lack `username` or
`password`, requesting `auth` or `all` fails with the missing-auth error
and exit code 1, while a `public` request can never produce that error. -/
theorem cli_missing_credentials_block_auth_not_public (env : Env) (o : Opts) (p : String)
    (hg : o.generate = false)
    (hp : locateConfig env o.config_dir = .ok p)
    (hcred : hasAuthConfigOf (varsOf (readConfig env p)) = false) :
    ((o.test_type = .auth ∨ o.test_type = .all) →
      cliRun env o = .err (.missingAuthConfig o.test_type)
        ∧ exitCodeOf (cliRun env o) = 1)
    ∧ (o.test_type = .public →
        ∀ t, cliRun env o ≠ .err (.missingAuthConfig t)) := by
  have hcli : cliRun env o = runTests env o := by simp [cliRun, hg]
  constructor
  · intro ht
    have hr : runTests env o = .err (.missingAuthConfig o.test_type) := by
      unfold runTests
      rw [hp]
      simp only
      have hcond : ((o.test_type = .auth || o.test_type = .all)
          && !hasAuthConfigOf (varsOf (readConfig env p))) = true := by
        rcases ht with ht | ht <;> simp [ht, hcred]
      simp [hcond]
    rw [hcli, hr]
    exact ⟨rfl, rfl⟩
  · intro ht t
    rw [hcli]
    unfold runTests
    rw [hp]
    simp only [ht]
    simp
    split
    · simp
    · split <;> simp
/-- C4: generating with a non-empty host writes the configuration to
`get_config_path`, and a subsequent locate with the same `--config-dir`
setting returns that very path, whose read-back variables hold the same
host value. -/
theorem cli_generate_then_locate_roundtrip (env : Env) (cd : Option String) (host : String) (tid sol : Int)
    (u pw : Option String) (hh : host ≠ "") :
    cliRun env (genOpts cd host tid u pw sol)
      = .generated (get_config_path env cd)
          [("variables", YVal.map (genVariables host tid u pw sol))]
    ∧ locateConfig (envAfter env (genOpts cd host tid u pw sol)) cd
        = .ok (get_config_path env cd)
    ∧ lookupKey (varsOf (readConfig (envAfter env (genOpts cd host tid u pw sol))
          (get_config_path env cd))) "host" = some (.str host) := by
  have hhe : host.isEmpty = false := isEmpty_false_of_ne host hh
  have hgen : cliRun env (genOpts cd host tid u pw sol)
      = .generated (get_config_path env cd)
          [("variables", YVal.map (genVariables host tid u pw sol))] := by
    simp [cliRun, genOpts, truthy, hhe]
  have henv : envAfter env (genOpts cd host tid u pw sol)
      = writeConfig env (get_config_path env cd)
          [("variables", YVal.map (genVariables host tid u pw sol))] := by
    simp [envAfter, hgen]
  refine ⟨hgen, ?_, ?_⟩
  · rw [henv]
    by_cases hcd : truthy cd = true
    · simp [locateConfig, get_config_path, hcd, pathExists, writeConfig]
    · simp only [Bool.not_eq_true] at hcd
      simp [locateConfig, get_config_path, hcd, find_config,
        get_config_locations, pathExists, writeConfig]
  · rw [henv]
    simp [readConfig, writeConfig, varsOf, lookupKey]
    by_cases hup : (truthy u && truthy pw) = true <;>
      simp [genVariables, lookupKey, hup]

/-- C7: an explicit directory is consulted exclusively (a miss there is the
not-found error regardless of other locations); otherwise the current
directory is searched before the user config directory and the first
existing path wins, and a total miss enumerates the searched locations. -/
theorem cli_config_locator_search_order (env : Env) (d : String) (hd : d ≠ "") :
    (pathExists env (joinPath d "common.yaml") = false →
       locateConfig env (some d)
         = .error (.configNotFoundAt (joinPath d "common.yaml")))
    ∧ (pathExists env (joinPath d "common.yaml") = true →
       locateConfig env (some d) = .ok (joinPath d "common.yaml"))
    ∧ (pathExists env (joinPath env.cwd "common.yaml") = true →
       locateConfig env none = .ok (joinPath env.cwd "common.yaml"))
    ∧ (pathExists env (joinPath env.cwd "common.yaml") = false →
       pathExists env (joinPath env.appDir "common.yaml") = true →
       locateConfig env none = .ok (joinPath env.appDir "common.yaml"))
    ∧ (pathExists env (joinPath env.cwd "common.yaml") = false →
       pathExists env (joinPath env.appDir "common.yaml") = false →
       locateConfig env none = .error (.configNotFoundSearched
         (get_config_locations env))) := by
  have hde : d.isEmpty = false := isEmpty_false_of_ne d hd
  refine ⟨fun h1 => ?_, fun h1 => ?_, fun h1 => ?_,
    fun h1 h2 => ?_, fun h1 h2 => ?_⟩ <;>
    simp [locateConfig, truthy, hde, find_config, get_config_locations, h1, *]
/-- C6: a test file is classified as `auth` (resp. `public`) exactly when its
raw text contains the literal marker-line text, so equivalently formatted
YAML without that exact text (extra indentation before the dash) is not
detected. -/
theorem cli_marker_detection_exact_text :
    (∀ c : String, strContains c authMarker = true
       ↔ ∃ a b, c.data = a ++ authMarker.data ++ b)
    ∧ (∀ c : String, strContains c publicMarker = true
       ↔ ∃ a b, c.data = a ++ publicMarker.data ++ b)
    ∧ strContains "test_name: x\nstages: []\nmarks:\n- auth\n" authMarker = true
    ∧ strContains "test_name: x\nstages: []\nmarks:\n  - auth\n" authMarker = false :=
  ⟨fun c => strContains_iff c authMarker,
   fun c => strContains_iff c publicMarker, rfl, rfl⟩

/-- C8: generating with host http://localhost:8000, testid 5 and solution 2
yields exactly the variables host/user_id/solution_id with those values
and no username or password keys. -/
theorem cli_generate_example_variables :
    cliRun envEmpty (genOpts none "http://localhost:8000" 5 none none 2)
      = .generated "/work/common.yaml"
          [("variables", YVal.map
            [("host", YVal.str "http://localhost:8000"),
             ("user_id", YVal.int 5), ("solution_id", YVal.int 2)])]
    ∧ hasKey (genVariables "http://localhost:8000" 5 none none 2) "username" = false
    ∧ hasKey (genVariables "http://localhost:8000" 5 none none 2) "password" = false :=
  ⟨rfl, rfl, rfl⟩

/-- C10: generating with only one credential, or an empty credential value,
omits both `username` and `password` from the variables and still succeeds
with exit code 0. -/
theorem cli_partial_credentials_omitted (env : Env) (cd : Option String) (host : String) (tid sol : Int)
    (u pw : Option String) (hh : host ≠ "")
    (hcred : (truthy u && truthy pw) = false) :
    cliRun env (genOpts cd host tid u pw sol)
      = .generated (get_config_path env cd)
          [("variables", YVal.map
            [("host", .str host), ("user_id", .int tid),
             ("solution_id", .int sol)])]
    ∧ hasKey (genVariables host tid u pw sol) "username" = false
    ∧ hasKey (genVariables host tid u pw sol) "password" = false
    ∧ exitCodeOf (cliRun env (genOpts cd host tid u pw sol)) = 0 := by
  have hhe : host.isEmpty = false := isEmpty_false_of_ne host hh
  have hbase : genVariables host tid u pw sol
      = [("host", .str host), ("user_id", .int tid), ("solution_id", .int sol)] := by
    simp [genVariables, hcred]
  have hgen : cliRun env (genOpts cd host tid u pw sol)
      = .generated (get_config_path env cd)
          [("variables", YVal.map
            [("host", .str host), ("user_id", .int tid),
             ("solution_id", .int sol)])] := by
    simp [cliRun, genOpts, truthy, hhe, hbase]
  refine ⟨hgen, ?_, ?_, ?_⟩
  · rw [hbase]; rfl
  · rw [hbase]; rfl
  · rw [hgen]; rfl
/-- Concrete instance of the engine-gating theorem on a fully provisioned
environment where the engine runs. -/
theorem cli_gates_engine_on_marks_and_credentials_witness :
    ({} : Opts).generate = false
    ∧ cliRun envFull {} = .run (pytestArgs "/pkg/tests" "/work/common.yaml" .all) 7
    ∧ (hasAuthConfigOf (locatedVars envFull ({} : Opts).config_dir) = true
        ∧ anyAuthTests envFull = true)
    ∧ anyPublicTests envFull = true :=
  ⟨rfl, rfl,
    ((cli_gates_engine_on_marks_and_credentials envFull {} rfl).1 (pytestArgs "/pkg/tests" "/work/common.yaml" .all)
      7 rfl).1 (Or.inr rfl),
    ((cli_gates_engine_on_marks_and_credentials envFull {} rfl).1 (pytestArgs "/pkg/tests" "/work/common.yaml" .all)
      7 rfl).2 (Or.inr rfl)⟩

/-- Concrete instance of the fail-fast theorem on an environment with no
configuration file. -/
theorem cli_errors_fail_fast_exit_one_witness :
    cliRun envEmpty {} = .err (.configNotFoundSearched
      ["/work/common.yaml", "/home/user/.config/nbsinfra_verify/common.yaml"])
    ∧ exitCodeOf (cliRun envEmpty {}) = 1
    ∧ engineInvoked (cliRun envEmpty {}) = false
    ∧ errText (.configNotFoundSearched
        ["/work/common.yaml",
         "/home/user/.config/nbsinfra_verify/common.yaml"]) ≠ "" :=
  ⟨rfl, (cli_errors_fail_fast_exit_one envEmpty {} _ rfl).1, (cli_errors_fail_fast_exit_one envEmpty {} _ rfl).2.1,
    (cli_errors_fail_fast_exit_one envEmpty {} _ rfl).2.2⟩

/-- Concrete instance of the credential-gate theorem on a credential-less
configuration. -/
theorem cli_missing_credentials_block_auth_not_public_witness :
    locateConfig envNoCred none = .ok "/work/common.yaml"
    ∧ hasAuthConfigOf (varsOf (readConfig envNoCred "/work/common.yaml")) = false
    ∧ cliRun envNoCred {} = .err (.missingAuthConfig .all)
    ∧ cliRun envNoCred { test_type := .public }
        ≠ .err (.missingAuthConfig .public) :=
  ⟨rfl, rfl,
    ((cli_missing_credentials_block_auth_not_public envNoCred {} "/work/common.yaml" rfl rfl rfl).1 (Or.inr rfl)).1,
    fun h => (cli_missing_credentials_block_auth_not_public envNoCred { test_type := .public } "/work/common.yaml"
      rfl rfl rfl).2 rfl .public h⟩

/-- Concrete round trip through an explicit `--config-dir`. -/
theorem cli_generate_then_locate_roundtrip_witness :
    "http://localhost:8000" ≠ ""
    ∧ (cliRun envEmpty (genOpts (some "/custom") "http://localhost:8000" 1 none none 1)
        = .generated (get_config_path envEmpty (some "/custom"))
            [("variables",
              YVal.map (genVariables "http://localhost:8000" 1 none none 1))]
      ∧ locateConfig
          (envAfter envEmpty (genOpts (some "/custom") "http://localhost:8000" 1 none none 1))
          (some "/custom")
          = .ok (get_config_path envEmpty (some "/custom"))
      ∧ lookupKey (varsOf (readConfig
            (envAfter envEmpty (genOpts (some "/custom") "http://localhost:8000" 1 none none 1))
            (get_config_path envEmpty (some "/custom")))) "host"
          = some (.str "http://localhost:8000")) :=
  ⟨by decide,
    cli_generate_then_locate_roundtrip envEmpty (some "/custom") "http://localhost:8000" 1 1 none none (by decide)⟩

/-- Concrete generate invocation with no host at all. -/
theorem cli_generate_without_host_writes_nothing_witness :
    ({ generate := true } : Opts).generate = true
    ∧ truthy ({ generate := true } : Opts).host = false
    ∧ cliRun envEmpty { generate := true } = .err .missingHost
    ∧ exitCodeOf (cliRun envEmpty { generate := true }) = 1
    ∧ envAfter envEmpty { generate := true } = envEmpty :=
  ⟨rfl, rfl, (cli_generate_without_host_writes_nothing envEmpty { generate := true } rfl rfl).1,
    (cli_generate_without_host_writes_nothing envEmpty { generate := true } rfl rfl).2.1,
    (cli_generate_without_host_writes_nothing envEmpty { generate := true } rfl rfl).2.2⟩

/-- Concrete instance of the locator theorem on an environment whose only
configuration sits in the user config directory. -/
theorem cli_config_locator_search_order_witness :
    "/custom" ≠ ""
    ∧ ((pathExists envUserOnly (joinPath "/custom" "common.yaml") = false →
         locateConfig envUserOnly (some "/custom")
           = .error (.configNotFoundAt (joinPath "/custom" "common.yaml")))
      ∧ (pathExists envUserOnly (joinPath "/custom" "common.yaml") = true →
         locateConfig envUserOnly (some "/custom")
           = .ok (joinPath "/custom" "common.yaml"))
      ∧ (pathExists envUserOnly (joinPath envUserOnly.cwd "common.yaml") = true →
         locateConfig envUserOnly none
           = .ok (joinPath envUserOnly.cwd "common.yaml"))
      ∧ (pathExists envUserOnly (joinPath envUserOnly.cwd "common.yaml") = false →
         pathExists envUserOnly (joinPath envUserOnly.appDir "common.yaml") = true →
         locateConfig envUserOnly none
           = .ok (joinPath envUserOnly.appDir "common.yaml"))
      ∧ (pathExists envUserOnly (joinPath envUserOnly.cwd "common.yaml") = false →
         pathExists envUserOnly (joinPath envUserOnly.appDir "common.yaml") = false →
         locateConfig envUserOnly none
           = .error (.configNotFoundSearched (get_config_locations envUserOnly)))) :=
  ⟨by decide, cli_config_locator_search_order envUserOnly "/custom" (by decide)⟩

/-- Concrete run where the engine exits with code 7 and the tool follows. -/
theorem cli_forwards_engine_exit_code_witness :
    cliRun envFull {} = .run (pytestArgs "/pkg/tests" "/work/common.yaml" .all) 7
    ∧ (7 : Int) = envFull.engine (pytestArgs "/pkg/tests" "/work/common.yaml" .all)
    ∧ exitCodeOf (cliRun envFull {})
        = envFull.engine (pytestArgs "/pkg/tests" "/work/common.yaml" .all) :=
  ⟨rfl,
    (cli_forwards_engine_exit_code envFull {} (pytestArgs "/pkg/tests" "/work/common.yaml" .all) 7 rfl).1,
    (cli_forwards_engine_exit_code envFull {} (pytestArgs "/pkg/tests" "/work/common.yaml" .all) 7 rfl).2⟩

/-- Concrete generate invocation supplying a username but no password. -/
theorem cli_partial_credentials_omitted_witness :
    "http://localhost:8000" ≠ ""
    ∧ (truthy (some "alice") && truthy none) = false
    ∧ (cliRun envEmpty (genOpts none "http://localhost:8000" 1 (some "alice") none 1)
        = .generated (get_config_path envEmpty none)
            [("variables", YVal.map
              [("host", .str "http://localhost:8000"), ("user_id", .int 1),
               ("solution_id", .int 1)])]
      ∧ hasKey (genVariables "http://localhost:8000" 1 (some "alice") none 1)
          "username" = false
      ∧ hasKey (genVariables "http://localhost:8000" 1 (some "alice") none 1)
          "password" = false
      ∧ exitCodeOf (cliRun envEmpty
          (genOpts none "http://localhost:8000" 1 (some "alice") none 1)) = 0) :=
  ⟨by decide, rfl,
    cli_partial_credentials_omitted envEmpty none "http://localhost:8000" 1 1 (some "alice") none
      (by decide) rfl⟩

end NbsapiVerify
